import Mathlib

/-!
Verification of the Telegram group-manager bot (`bot.py`).

The program is a single-process bot: an SQLite store with two tables
(`group_stats`, `user_activity`) maintained by `init_database` and
`track_activity`, plus command handlers (`stats`, `lock`, `unlock`, `mute`,
`unmute`, `ban`, `kick`) that perform remote platform calls guarded by two
admin lookups (`is_admin`, `is_bot_admin`).

The store is embedded as lists of rows (SQLite `INSERT OR REPLACE` on a
primary key becomes erase-then-cons).  Each handler is embedded as a pure
function from an environment — the results the remote platform would return
for each call the handler can make — to the trace of calls and replies the
handler issues, in order.  A `TelegramError` raised by a remote call is an
`Except.error` carrying the message text of the error (`str(e)`); the reply send
itself (`reply_text`) is modelled as an always-recorded event, since the
code never inspects its result.
-/

/-- A row of the `group_stats` table: key `(group_id, date)`;
`member_count` is a nullable column. -/
structure GSRow where
  group_id : Int
  date : String
  member_count : Option Int
  messages_count : Int
deriving DecidableEq, Repr

/-- A row of the `user_activity` table: key `(user_id, group_id)`. -/
structure UARow where
  user_id : Int
  group_id : Int
  username : Option String
  first_name : String
  last_message : String
  message_count : Int
deriving DecidableEq, Repr

/-- The two tables, once `init_database` has created them. -/
structure Store where
  group_stats : List GSRow
  user_activity : List UARow
deriving DecidableEq, Repr

/-- The query `SELECT ... FROM group_stats WHERE group_id = ? AND date = ?`
(primary-key lookup: at most one row; `find?` returns the first). -/
def lookupGS (s : Store) (g : Int) (d : String) : Option GSRow :=
  s.group_stats.find? (fun r => r.group_id == g && r.date == d)

/-- The query `SELECT ... FROM user_activity WHERE user_id = ? AND group_id = ?`. -/
def lookupUA (s : Store) (u g : Int) : Option UARow :=
  s.user_activity.find? (fun r => r.user_id == u && r.group_id == g)

/-- The sender of a tracked message (`update.effective_user`). -/
structure UserInfo where
  id : Int
  username : Option String
  first_name : String
deriving DecidableEq, Repr

/-- Embedding of `track_activity`: ignores private chats, then performs the two
`INSERT OR REPLACE` upserts.  The new `user_activity` row gets
`message_count = COALESCE((SELECT message_count ...), 0) + 1`; the new
`group_stats` row gets `member_count = (SELECT COALESCE(member_count, 0) ...)`
— which is NULL when no row exists, since the scalar subquery is then NULL —
and `messages_count = COALESCE((SELECT messages_count ...), 0) + 1`.
`INSERT OR REPLACE` deletes any row with the same primary key and inserts
the new one. -/
def trackActivity (s : Store) (user : UserInfo) (chatId : Int)
    (chatType : String) (today : String) : Store :=
  if chatType = "private" then s
  else
    let oldUA := lookupUA s user.id chatId
    let uaRow : UARow :=
      { user_id := user.id, group_id := chatId, username := user.username,
        first_name := user.first_name, last_message := today,
        message_count := ((oldUA.map (·.message_count)).getD 0) + 1 }
    let oldGS := lookupGS s chatId today
    let gsRow : GSRow :=
      { group_id := chatId, date := today,
        member_count := oldGS.map (fun r => r.member_count.getD 0),
        messages_count := ((oldGS.map (·.messages_count)).getD 0) + 1 }
    { user_activity :=
        uaRow :: s.user_activity.filter
          (fun r => !(r.user_id == user.id && r.group_id == chatId)),
      group_stats :=
        gsRow :: s.group_stats.filter
          (fun r => !(r.group_id == chatId && r.date == today)) }

/-- The database file as `init_database` sees it: each table either absent
(`none`) or present with its rows. -/
structure DB where
  group_stats_table : Option (List GSRow)
  user_activity_table : Option (List UARow)
deriving DecidableEq, Repr

/-- Embedding of `init_database`: two `CREATE TABLE IF NOT EXISTS` statements — each
table is created empty when absent and left untouched when present. -/
def initDatabase (db : DB) : DB :=
  { group_stats_table := some (db.group_stats_table.getD []),
    user_activity_table := some (db.user_activity_table.getD []) }

/-- C5: Running `init_database` against a store in which both tables already
exist is a no-op: the schema and every existing row of `group_stats` and
`user_activity` are preserved. -/
theorem init_database_idempotent_on_existing (db : DB)
    (gs : List GSRow) (ua : List UARow)
    (hgs : db.group_stats_table = some gs)
    (hua : db.user_activity_table = some ua) :
    initDatabase db = db := by
  cases db
  simp only [DB.mk.injEq] at hgs hua
  simp [initDatabase, hgs, hua]

/-- Lemma: `find?` over a `filter` that only discards elements the query predicate
rejects anyway finds the same element as `find?` over the original list. -/
theorem find?_filter_eq_of_imp {α : Type} (l : List α) (p q : α → Bool)
    (h : ∀ a, q a = true → p a = true) :
    (l.filter p).find? q = l.find? q := by
  induction l with
  | nil => rfl
  | cons a t ih =>
    cases hp : p a with
    | false =>
      have hq : q a = false := by
        cases hqa : q a with
        | false => rfl
        | true => rw [h a hqa] at hp; exact absurd hp (by simp)
      simp [List.filter_cons, hp, List.find?_cons, hq, ih]
    | true =>
      cases hq : q a with
      | false => simp [List.filter_cons, hp, List.find?_cons, hq, ih]
      | true => simp [List.filter_cons, hp, List.find?_cons, hq]

/-- After a non-private `track_activity`, the `(user, group)` row is the
freshly inserted one, with the counter read-modify-written. -/
theorem lookupUA_trackActivity_self (s : Store) (u : UserInfo) (cid : Int)
    (ct d : String) (h : ct ≠ "private") :
    lookupUA (trackActivity s u cid ct d) u.id cid =
      some { user_id := u.id, group_id := cid, username := u.username,
             first_name := u.first_name, last_message := d,
             message_count :=
               (((lookupUA s u.id cid).map (·.message_count)).getD 0) + 1 } := by
  simp [trackActivity, h, lookupUA, List.find?_cons]

/-- After a non-private `track_activity`, the `(group, date)` row is the
freshly inserted one. -/
theorem lookupGS_trackActivity_self (s : Store) (u : UserInfo) (cid : Int)
    (ct d : String) (h : ct ≠ "private") :
    lookupGS (trackActivity s u cid ct d) cid d =
      some { group_id := cid, date := d,
             member_count := (lookupGS s cid d).map (fun r => r.member_count.getD 0),
             messages_count :=
               (((lookupGS s cid d).map (·.messages_count)).getD 0) + 1 } := by
  simp [trackActivity, h, lookupGS, List.find?_cons]

/-- Rows of `user_activity` with a different primary key are left untouched:
`track_activity` leaves every `user_activity` row with a different
primary key untouched. -/
theorem lookupUA_trackActivity_other (s : Store) (u : UserInfo) (cid : Int)
    (ct d : String) (q g : Int) (hne : ¬(q = u.id ∧ g = cid)) :
    lookupUA (trackActivity s u cid ct d) q g = lookupUA s q g := by
  by_cases hp : ct = "private"
  · simp [trackActivity, hp]
  · simp only [trackActivity, if_neg hp, lookupUA]
    rw [List.find?_cons_of_neg, find?_filter_eq_of_imp]
    · intro a ha
      simp only [Bool.and_eq_true, beq_iff_eq] at ha
      cases hcon : (a.user_id == u.id && a.group_id == cid) with
      | false => simp [hcon]
      | true =>
        simp only [Bool.and_eq_true, beq_iff_eq] at hcon
        exact absurd ⟨ha.1.symm.trans hcon.1, ha.2.symm.trans hcon.2⟩ hne
    · simp only [Bool.and_eq_true, beq_iff_eq, not_and]
      intro h1 h2
      exact absurd ⟨h1.symm, h2.symm⟩ hne

/-- Rows of `group_stats` with a different primary key are left untouched:
`track_activity` leaves every `group_stats` row with a different
primary key untouched. -/
theorem lookupGS_trackActivity_other (s : Store) (u : UserInfo) (cid : Int)
    (ct d : String) (g : Int) (dd : String) (hne : ¬(g = cid ∧ dd = d)) :
    lookupGS (trackActivity s u cid ct d) g dd = lookupGS s g dd := by
  by_cases hp : ct = "private"
  · simp [trackActivity, hp]
  · simp only [trackActivity, if_neg hp, lookupGS]
    rw [List.find?_cons_of_neg, find?_filter_eq_of_imp]
    · intro a ha
      simp only [Bool.and_eq_true, beq_iff_eq] at ha
      cases hcon : (a.group_id == cid && a.date == d) with
      | false => simp [hcon]
      | true =>
        simp only [Bool.and_eq_true, beq_iff_eq] at hcon
        exact absurd ⟨ha.1.symm.trans hcon.1, ha.2.symm.trans hcon.2⟩ hne
    · simp only [Bool.and_eq_true, beq_iff_eq, not_and]
      intro h1 h2
      exact absurd ⟨h1.symm, h2.symm⟩ hne

/-- The running `message_count` of a `(user, group)` pair, 0 when no row. -/
def uaCount (s : Store) (u g : Int) : Int :=
  ((lookupUA s u g).map (·.message_count)).getD 0

/-- The `messages_count` of a `(group, date)` pair, 0 when no row. -/
def gsCount (s : Store) (g : Int) (d : String) : Int :=
  ((lookupGS s g d).map (·.messages_count)).getD 0

/-- One non-private `track_activity` adds exactly 1 to the per-user counter
of the sender. -/
theorem uaCount_trackActivity_self (s : Store) (u : UserInfo) (cid : Int)
    (ct d : String) (h : ct ≠ "private") :
    uaCount (trackActivity s u cid ct d) u.id cid = uaCount s u.id cid + 1 := by
  simp [uaCount, lookupUA_trackActivity_self s u cid ct d h]

/-- One non-private `track_activity` adds exactly 1 to the daily counter of
the group. -/
theorem gsCount_trackActivity_self (s : Store) (u : UserInfo) (cid : Int)
    (ct d : String) (h : ct ≠ "private") :
    gsCount (trackActivity s u cid ct d) cid d = gsCount s cid d + 1 := by
  simp [gsCount, lookupGS_trackActivity_self s u cid ct d h]

/-- Iterating `track_activity` n times adds n to both counters. -/
theorem counts_iterate (s : Store) (u : UserInfo) (cid : Int)
    (ct d : String) (h : ct ≠ "private") (n : Nat) :
    uaCount ((fun st => trackActivity st u cid ct d)^[n] s) u.id cid =
      uaCount s u.id cid + n ∧
    gsCount ((fun st => trackActivity st u cid ct d)^[n] s) cid d =
      gsCount s cid d + n := by
  induction n with
  | zero => simp
  | succ k ih =>
    rw [Function.iterate_succ_apply']
    constructor
    · rw [uaCount_trackActivity_self _ u cid ct d h, ih.1]
      push_cast; ring
    · rw [gsCount_trackActivity_self _ u cid ct d h, ih.2]
      push_cast; ring

/-- C1: In a group (non-private) chat, N messages from the same user on the
same day, starting from a store with no row for that `(user, group)` pair
and no row for that `(group, day)` pair, leave the `user_activity` row with
`message_count = N` and the `group_stats` row with `messages_count = N`
(an increase of exactly N from the empty start). -/
theorem track_activity_n_messages (s : Store) (u : UserInfo) (cid : Int)
    (ct d : String) (N : Nat)
    (hct : ct ≠ "private")
    (hua : lookupUA s u.id cid = none)
    (hgs : lookupGS s cid d = none)
    (hN : 1 ≤ N) :
    ∃ ur gr,
      lookupUA ((fun st => trackActivity st u cid ct d)^[N] s) u.id cid = some ur ∧
      ur.message_count = (N : Int) ∧
      lookupGS ((fun st => trackActivity st u cid ct d)^[N] s) cid d = some gr ∧
      gr.messages_count = (N : Int) := by
  obtain ⟨m, rfl⟩ : ∃ m, N = m + 1 := ⟨N - 1, (Nat.succ_pred_eq_of_pos hN).symm⟩
  have hcnt := counts_iterate s u cid ct d hct m
  have hua0 : uaCount s u.id cid = 0 := by simp [uaCount, hua]
  have hgs0 : gsCount s cid d = 0 := by simp [gsCount, hgs]
  rw [Function.iterate_succ_apply']
  refine ⟨_, _, lookupUA_trackActivity_self _ u cid ct d hct, ?_,
    lookupGS_trackActivity_self _ u cid ct d hct, ?_⟩
  · show (((lookupUA _ u.id cid).map (·.message_count)).getD 0) + 1 = ((m + 1 : Nat) : Int)
    have : uaCount ((fun st => trackActivity st u cid ct d)^[m] s) u.id cid = m := by
      rw [hcnt.1, hua0]; ring
    rw [show (((lookupUA ((fun st => trackActivity st u cid ct d)^[m] s) u.id cid).map
      (·.message_count)).getD 0) = uaCount ((fun st => trackActivity st u cid ct d)^[m] s)
      u.id cid from rfl, this]
    push_cast; ring
  · show (((lookupGS _ cid d).map (·.messages_count)).getD 0) + 1 = ((m + 1 : Nat) : Int)
    have : gsCount ((fun st => trackActivity st u cid ct d)^[m] s) cid d = m := by
      rw [hcnt.2, hgs0]; ring
    rw [show (((lookupGS ((fun st => trackActivity st u cid ct d)^[m] s) cid d).map
      (·.messages_count)).getD 0) = gsCount ((fun st => trackActivity st u cid ct d)^[m] s)
      cid d from rfl, this]
    push_cast; ring

/-- Witness for C1: three messages in group 5 by user 9 on a fresh store. -/
theorem track_activity_n_messages_witness :
    ∃ ur gr,
      lookupUA ((fun st => trackActivity st
        { id := 9, username := none, first_name := "A" } 5 "group" "2024-06-01")^[3]
        { group_stats := [], user_activity := [] }) 9 5 = some ur ∧
      ur.message_count = (3 : Int) ∧
      lookupGS ((fun st => trackActivity st
        { id := 9, username := none, first_name := "A" } 5 "group" "2024-06-01")^[3]
        { group_stats := [], user_activity := [] }) 5 "2024-06-01" = some gr ∧
      gr.messages_count = (3 : Int) :=
  track_activity_n_messages { group_stats := [], user_activity := [] }
    { id := 9, username := none, first_name := "A" } 5 "group" "2024-06-01" 3
    (by decide) rfl rfl (by decide)

/-- C7: Every store operation preserves primary-key uniqueness —
`(group_id, date)` in `group_stats`, `(user_id, group_id)` in
`user_activity` — and `track_activity` is monotonic: it never decreases
`messages_count` of any `group_stats` row or `message_count` of any
`user_activity` row; `init_database` preserves every row. -/
theorem store_invariants (s : Store) (u : UserInfo) (cid : Int)
    (ct d : String) (db : DB) :
    ((s.group_stats.map (fun r => (r.group_id, r.date))).Nodup →
      ((trackActivity s u cid ct d).group_stats.map
        (fun r => (r.group_id, r.date))).Nodup) ∧
    ((s.user_activity.map (fun r => (r.user_id, r.group_id))).Nodup →
      ((trackActivity s u cid ct d).user_activity.map
        (fun r => (r.user_id, r.group_id))).Nodup) ∧
    (∀ g dd, gsCount s g dd ≤ gsCount (trackActivity s u cid ct d) g dd) ∧
    (∀ q g, uaCount s q g ≤ uaCount (trackActivity s u cid ct d) q g) ∧
    (initDatabase db).group_stats_table.getD [] = db.group_stats_table.getD [] ∧
    (initDatabase db).user_activity_table.getD [] = db.user_activity_table.getD [] := by
  by_cases hp : ct = "private"
  · refine ⟨?_, ?_, ?_, ?_, ?_, ?_⟩ <;>
      simp [trackActivity, hp, initDatabase, le_refl]
  · refine ⟨?_, ?_, ?_, ?_, ?_, ?_⟩
    · intro hnd
      simp only [trackActivity, if_neg hp, List.map_cons]
      rw [List.nodup_cons]
      constructor
      · intro hmem
        simp only [List.mem_map, List.mem_filter] at hmem
        obtain ⟨r, ⟨_, hpr⟩, hkey⟩ := hmem
        simp only [Prod.mk.injEq] at hkey
        simp only [hkey.1, hkey.2, beq_self_eq_true, Bool.and_self,
          Bool.not_true] at hpr
        exact absurd hpr (by simp)
      · exact List.Nodup.sublist
          (List.Sublist.map _ (List.filter_sublist _)) hnd
    · intro hnd
      simp only [trackActivity, if_neg hp, List.map_cons]
      rw [List.nodup_cons]
      constructor
      · intro hmem
        simp only [List.mem_map, List.mem_filter] at hmem
        obtain ⟨r, ⟨_, hpr⟩, hkey⟩ := hmem
        simp only [Prod.mk.injEq] at hkey
        simp only [hkey.1, hkey.2, beq_self_eq_true, Bool.and_self,
          Bool.not_true] at hpr
        exact absurd hpr (by simp)
      · exact List.Nodup.sublist
          (List.Sublist.map _ (List.filter_sublist _)) hnd
    · intro g dd
      by_cases hk : g = cid ∧ dd = d
      · rw [hk.1, hk.2, gsCount_trackActivity_self s u cid ct d hp]
        omega
      · rw [gsCount, gsCount, lookupGS_trackActivity_other s u cid ct d g dd hk]
    · intro q g
      by_cases hk : q = u.id ∧ g = cid
      · rw [hk.1, hk.2, uaCount_trackActivity_self s u cid ct d hp]
        omega
      · rw [uaCount, uaCount, lookupUA_trackActivity_other s u cid ct d q g hk]
    · cases hdb : db.group_stats_table <;> simp [initDatabase, hdb]
    · cases hdb : db.user_activity_table <;> simp [initDatabase, hdb]

/-- Witness for C7 at a concrete store, user and database. -/
theorem store_invariants_witness :
    (([{ group_id := 5, date := "2024-06-01", member_count := none,
         messages_count := 2 }] : List GSRow).map
        (fun r => (r.group_id, r.date))).Nodup ∧
    (((trackActivity
        { group_stats := [{ group_id := 5, date := "2024-06-01",
                            member_count := none, messages_count := 2 }],
          user_activity := [] }
        { id := 9, username := none, first_name := "A" } 5 "group"
        "2024-06-01").group_stats.map
        (fun r => (r.group_id, r.date))).Nodup) := by
  refine ⟨by decide, ?_⟩
  exact (store_invariants
    { group_stats := [{ group_id := 5, date := "2024-06-01",
                        member_count := none, messages_count := 2 }],
      user_activity := [] }
    { id := 9, username := none, first_name := "A" } 5 "group" "2024-06-01"
    { group_stats_table := none, user_activity_table := none }).1 (by decide)

/-- C9: `track_activity` never writes a platform-derived member count: the
`member_count` it stores for `(group, date)` is a function of the previous
row alone — `NULL` when no row existed (the scalar subquery over an empty
result is `NULL`), otherwise `COALESCE(member_count, 0)` of the old row —
and `init_database`, the only other store-writing operation, writes no
rows at all. -/
theorem member_count_never_set (s : Store) (u : UserInfo) (cid : Int)
    (ct d : String) (hct : ct ≠ "private") :
    ∃ gr, lookupGS (trackActivity s u cid ct d) cid d = some gr ∧
      gr.member_count = (lookupGS s cid d).map (fun r => r.member_count.getD 0) ∧
      (lookupGS s cid d = none → gr.member_count = none) := by
  refine ⟨_, lookupGS_trackActivity_self s u cid ct d hct, rfl, ?_⟩
  intro hnone
  simp [hnone]

/-- Witness for C9: on an empty store the inserted row has NULL
`member_count`. -/
theorem member_count_never_set_witness :
    ∃ gr, lookupGS (trackActivity { group_stats := [], user_activity := [] }
        { id := 9, username := none, first_name := "A" } 5 "group"
        "2024-06-01") 5 "2024-06-01" = some gr ∧
      gr.member_count = (lookupGS { group_stats := [], user_activity := [] }
        5 "2024-06-01").map (fun r => r.member_count.getD 0) ∧
      (lookupGS { group_stats := [], user_activity := [] } 5 "2024-06-01" = none →
        gr.member_count = none) :=
  member_count_never_set { group_stats := [], user_activity := [] }
    { id := 9, username := none, first_name := "A" } 5 "group" "2024-06-01"
    (by decide)

/-- Witness for C5 at a concrete one-row database. -/
theorem init_database_idempotent_on_existing_witness :
    initDatabase
      { group_stats_table :=
          some [{ group_id := 7, date := "2024-01-01", member_count := none,
                  messages_count := 3 }],
        user_activity_table := some [] } =
      { group_stats_table :=
          some [{ group_id := 7, date := "2024-01-01", member_count := none,
                  messages_count := 3 }],
        user_activity_table := some [] } :=
  init_database_idempotent_on_existing _ _ _ rfl rfl

/-- The status result of a `get_chat_member` remote lookup: either the
status string of the member, or the message text of the raised `TelegramError`. -/
def StatusResult : Type := Except String String

/-- The result of a mutating remote call: `ok` or the text of the raised error. -/
def CallResult : Type := Except String Unit

/-- Embedding of `ChatPermissions`: constructor arguments default to
`None` in the library, so unspecified fields are `none`. -/
structure ChatPermissions where
  can_send_messages : Option Bool := none
  can_send_media_messages : Option Bool := none
  can_send_polls : Option Bool := none
  can_send_other_messages : Option Bool := none
  can_add_web_page_previews : Option Bool := none
  can_change_info : Option Bool := none
  can_invite_users : Option Bool := none
  can_pin_messages : Option Bool := none
deriving DecidableEq, Repr

/-- The permission object built by `lock_group`: every field `False`. -/
def lockPermissions : ChatPermissions :=
  { can_send_messages := some false, can_send_media_messages := some false,
    can_send_polls := some false, can_send_other_messages := some false,
    can_add_web_page_previews := some false, can_change_info := some false,
    can_invite_users := some false, can_pin_messages := some false }

/-- The permission object built by `unlock_group`. -/
def unlockPermissions : ChatPermissions :=
  { can_send_messages := some true, can_send_media_messages := some true,
    can_send_polls := some true, can_send_other_messages := some true,
    can_add_web_page_previews := some true, can_change_info := some false,
    can_invite_users := some true, can_pin_messages := some false }

/-- The permission object built by `mute_user`:
`ChatPermissions(can_send_messages=False)`. -/
def mutePermissions : ChatPermissions :=
  { can_send_messages := some false }

/-- The permission object built by `unmute_user` (five fields set). -/
def unmutePermissions : ChatPermissions :=
  { can_send_messages := some true, can_send_media_messages := some true,
    can_send_polls := some true, can_send_other_messages := some true,
    can_add_web_page_previews := some true }

/-- One observable step of a handler: a remote platform call it issues, or
a reply it sends to the chat.  The trace records them in program order. -/
inductive Event where
  | getChatMember (chatId userId : Int)
  | getChatMemberCount (chatId : Int)
  | getChatAdministrators (chatId : Int)
  | setChatPermissions (chatId : Int) (perms : ChatPermissions)
  | restrictChatMember (chatId userId : Int) (perms : ChatPermissions)
      (hasUntilDate : Bool)
  | banChatMember (chatId userId : Int)
  | unbanChatMember (chatId userId : Int)
  | reply (text : String)
deriving DecidableEq, Repr

/-- Whether an event is one of the mutating remote calls
(`set_chat_permissions`, `restrict_chat_member`, `ban_chat_member`,
`unban_chat_member`). -/
def isMutating : Event → Bool
  | Event.setChatPermissions _ _ => true
  | Event.restrictChatMember _ _ _ _ => true
  | Event.banChatMember _ _ => true
  | Event.unbanChatMember _ _ => true
  | _ => false

/-- The user a command targets (`reply_to_message.from_user`). -/
structure TargetUser where
  id : Int
  first_name : String
deriving DecidableEq, Repr

/-- Everything a handler invocation can observe: the chat and users of the
update, and the outcome the remote platform would give to each call the
handler can make.  `callerStatus` is what `get_chat_member(chat, caller)`
returns, `botStatus` what `get_chat_member(chat, bot)` returns;
`mutateResult` is the outcome of the (first) mutating call of the handler,
`unbanResult` that of the follow-up `unban_chat_member` in `kick_user`;
`memberCountRes` and `adminsRes` serve `stats_command` (the admins lookup
result is its length, the only use the code makes of it). -/
structure Env where
  chatId : Int
  chatType : String
  chatTitle : String
  callerId : Int
  botId : Int
  callerStatus : Except String String
  botStatus : Except String String
  replyTarget : Option TargetUser
  argsFirstIsAt : Bool
  mutateResult : Except String Unit
  unbanResult : Except String Unit
  memberCountRes : Except String Int
  adminsRes : Except String Int
  today : String
  nowStr : String
deriving Repr

/-- The status test of `is_admin`: accepts status "administrator" or
"creator", with a raised `TelegramError` mapped to `False`. -/
def isAdminStatus : Except String String → Bool
  | Except.ok st => st == "administrator" || st == "creator"
  | Except.error _ => false

/-- The status test of `is_bot_admin`: accepts exactly the status
"administrator", with a raised `TelegramError` mapped to `False`. -/
def isBotAdminStatus : Except String String → Bool
  | Except.ok st => st == "administrator"
  | Except.error _ => false

/-- Result of `is_admin` in environment `e`. -/
def isAdmin (e : Env) : Bool := isAdminStatus e.callerStatus

/-- Result of `is_bot_admin` in environment `e`. -/
def isBotAdmin (e : Env) : Bool := isBotAdminStatus e.botStatus

/-- The rejection reply each privileged handler sends when `is_admin`
returns `False`. -/
def onlyAdminsReply : String := "❌ Only admins can use this command!"

/-- Embedding of `lock_group`. -/
def lockGroup (e : Env) : List Event :=
  Event.getChatMember e.chatId e.callerId ::
  if isAdmin e = false then [Event.reply onlyAdminsReply]
  else
    Event.getChatMember e.chatId e.botId ::
    if isBotAdmin e = false then
      [Event.reply "❌ I need admin privileges to lock the group!"]
    else
      Event.setChatPermissions e.chatId lockPermissions ::
      match e.mutateResult with
      | Except.ok _ =>
          [Event.reply "🔒 Group has been locked! Only admins can send messages."]
      | Except.error err => [Event.reply ("❌ Failed to lock group: " ++ err)]

/-- Embedding of `unlock_group`. -/
def unlockGroup (e : Env) : List Event :=
  Event.getChatMember e.chatId e.callerId ::
  if isAdmin e = false then [Event.reply onlyAdminsReply]
  else
    Event.getChatMember e.chatId e.botId ::
    if isBotAdmin e = false then
      [Event.reply "❌ I need admin privileges to unlock the group!"]
    else
      Event.setChatPermissions e.chatId unlockPermissions ::
      match e.mutateResult with
      | Except.ok _ =>
          [Event.reply "🔓 Group has been unlocked! Everyone can send messages."]
      | Except.error err => [Event.reply ("❌ Failed to unlock group: " ++ err)]

/-- Embedding of `mute_user`. -/
def muteUser (e : Env) : List Event :=
  Event.getChatMember e.chatId e.callerId ::
  if isAdmin e = false then [Event.reply onlyAdminsReply]
  else
    Event.getChatMember e.chatId e.botId ::
    if isBotAdmin e = false then
      [Event.reply "❌ I need admin privileges to mute users!"]
    else
      match e.replyTarget with
      | some t =>
          Event.restrictChatMember e.chatId t.id mutePermissions true ::
          match e.mutateResult with
          | Except.ok _ =>
              [Event.reply ("🔇 User " ++ t.first_name ++ " has been muted for 1 hour.")]
          | Except.error err => [Event.reply ("❌ Failed to mute user: " ++ err)]
      | none =>
          if e.argsFirstIsAt then
            [Event.reply "Please reply to a message or provide user ID"]
          else
            [Event.reply "Please reply to a message from the user you want to mute or use @username"]

/-- Embedding of `unmute_user`. -/
def unmuteUser (e : Env) : List Event :=
  Event.getChatMember e.chatId e.callerId ::
  if isAdmin e = false then [Event.reply onlyAdminsReply]
  else
    Event.getChatMember e.chatId e.botId ::
    if isBotAdmin e = false then
      [Event.reply "❌ I need admin privileges to unmute users!"]
    else
      match e.replyTarget with
      | some t =>
          Event.restrictChatMember e.chatId t.id unmutePermissions false ::
          match e.mutateResult with
          | Except.ok _ =>
              [Event.reply ("🔊 User " ++ t.first_name ++ " has been unmuted.")]
          | Except.error err => [Event.reply ("❌ Failed to unmute user: " ++ err)]
      | none =>
          [Event.reply "Please reply to a message from the user you want to unmute"]

/-- Embedding of `ban_user`. -/
def banUser (e : Env) : List Event :=
  Event.getChatMember e.chatId e.callerId ::
  if isAdmin e = false then [Event.reply onlyAdminsReply]
  else
    Event.getChatMember e.chatId e.botId ::
    if isBotAdmin e = false then
      [Event.reply "❌ I need admin privileges to ban users!"]
    else
      match e.replyTarget with
      | some t =>
          Event.banChatMember e.chatId t.id ::
          match e.mutateResult with
          | Except.ok _ =>
              [Event.reply ("🚫 User " ++ t.first_name ++ " has been banned from the group.")]
          | Except.error err => [Event.reply ("❌ Failed to ban user: " ++ err)]
      | none =>
          [Event.reply "Please reply to a message from the user you want to ban"]

/-- Embedding of `kick_user`: `ban_chat_member` immediately followed by
`unban_chat_member`, both inside one `try`. -/
def kickUser (e : Env) : List Event :=
  Event.getChatMember e.chatId e.callerId ::
  if isAdmin e = false then [Event.reply onlyAdminsReply]
  else
    Event.getChatMember e.chatId e.botId ::
    if isBotAdmin e = false then
      [Event.reply "❌ I need admin privileges to kick users!"]
    else
      match e.replyTarget with
      | some t =>
          Event.banChatMember e.chatId t.id ::
          match e.mutateResult with
          | Except.ok _ =>
              Event.unbanChatMember e.chatId t.id ::
              match e.unbanResult with
              | Except.ok _ =>
                  [Event.reply ("👢 User " ++ t.first_name ++ " has been kicked from the group.")]
              | Except.error err => [Event.reply ("❌ Failed to kick user: " ++ err)]
          | Except.error err => [Event.reply ("❌ Failed to kick user: " ++ err)]
      | none =>
          [Event.reply "Please reply to a message from the user you want to kick"]

/-- The count of `user_activity` rows with `group_id = ?` and
`last_message = ?` (the active-users query of `stats_command`). -/
def activeUsersToday (s : Store) (g : Int) (d : String) : Nat :=
  (s.user_activity.filter (fun r => r.group_id == g && r.last_message == d)).length

/-- The statistics text `stats_command` sends on success (interior
whitespace of the Python triple-quoted f-string abstracted to newlines). -/
def statsText (title : String) (memberCount adminCount : Int)
    (activeUsers : Nat) (todayMessages : Int) (now : String) : String :=
  "📊 **Group Statistics for " ++ title ++ "**\n\n" ++
  "👥 **Members:** " ++ toString memberCount ++ "\n" ++
  "👑 **Admins:** " ++ toString adminCount ++ "\n" ++
  "📱 **Active Users Today:** " ++ toString activeUsers ++ "\n" ++
  "💬 **Messages Today:** " ++ toString todayMessages ++ "\n\n" ++
  "📅 **Date:** " ++ now

/-- Embedding of `stats_command`: private-chat guard, then the two remote
lookups inside one `try`; the first raised error ends the block with an
error reply, so the second lookup is only issued after the first
succeeded. -/
def statsCommand (e : Env) (s : Store) : List Event :=
  if e.chatType = "private" then [Event.reply "This command only works in groups!"]
  else
    Event.getChatMemberCount e.chatId ::
    match e.memberCountRes with
    | Except.error err => [Event.reply ("❌ Error getting statistics: " ++ err)]
    | Except.ok mc =>
        Event.getChatAdministrators e.chatId ::
        match e.adminsRes with
        | Except.error err => [Event.reply ("❌ Error getting statistics: " ++ err)]
        | Except.ok ac =>
            [Event.reply (statsText e.chatTitle mc ac
              (activeUsersToday s e.chatId e.today)
              (gsCount s e.chatId e.today) e.nowStr)]

/-- Effect of one event on the platform ban state, a predicate on
`(chatId, userId)` pairs. -/
def applyEvent (banned : Int × Int → Bool) : Event → (Int × Int → Bool)
  | Event.banChatMember c uid => fun p => if p = (c, uid) then true else banned p
  | Event.unbanChatMember c uid => fun p => if p = (c, uid) then false else banned p
  | _ => banned

/-- Effect of a whole trace on the ban state, applied in order. -/
def applyTrace (banned : Int × Int → Bool) (tr : List Event) : Int × Int → Bool :=
  tr.foldl applyEvent banned

/-- Decidable substring test on the underlying character lists. -/
def containsSub (sub : List Char) : List Char → Bool
  | [] => sub.isEmpty
  | c :: t => sub.isPrefixOf (c :: t) || containsSub sub t

/-- Whether `sub` occurs as a contiguous substring of `hay`. -/
def strContains (hay sub : String) : Bool := containsSub sub.data hay.data

/-- A baseline environment for concrete witnesses: everything succeeds,
both parties are administrators, a reply target is present. -/
def sampleEnv : Env :=
  { chatId := 100, chatType := "supergroup", chatTitle := "G",
    callerId := 1, botId := 2,
    callerStatus := Except.ok "administrator",
    botStatus := Except.ok "administrator",
    replyTarget := some { id := 3, first_name := "T" },
    argsFirstIsAt := false,
    mutateResult := Except.ok (),
    unbanResult := Except.ok (),
    memberCountRes := Except.ok 10,
    adminsRes := Except.ok 2,
    today := "2024-06-01", nowStr := "2024-06-01 12:00:00" }

/-- C2: For each permission-gated command (lock, unlock, mute, unmute,
ban, kick), a caller whose chat-member status is neither "administrator"
nor "creator" gets the explanatory rejection reply and the handler
returns: its whole trace is the caller lookup followed by that reply, so
no privileged action is performed. -/
theorem privileged_rejects_non_admin (e : Env) (st : String)
    (hs : e.callerStatus = Except.ok st)
    (h1 : st ≠ "administrator") (h2 : st ≠ "creator") :
    lockGroup e = [Event.getChatMember e.chatId e.callerId,
      Event.reply onlyAdminsReply] ∧
    unlockGroup e = [Event.getChatMember e.chatId e.callerId,
      Event.reply onlyAdminsReply] ∧
    muteUser e = [Event.getChatMember e.chatId e.callerId,
      Event.reply onlyAdminsReply] ∧
    unmuteUser e = [Event.getChatMember e.chatId e.callerId,
      Event.reply onlyAdminsReply] ∧
    banUser e = [Event.getChatMember e.chatId e.callerId,
      Event.reply onlyAdminsReply] ∧
    kickUser e = [Event.getChatMember e.chatId e.callerId,
      Event.reply onlyAdminsReply] := by
  have hA : isAdmin e = false := by
    simp [isAdmin, isAdminStatus, hs, h1, h2]
  refine ⟨?_, ?_, ?_, ?_, ?_, ?_⟩ <;>
    simp [lockGroup, unlockGroup, muteUser, unmuteUser, banUser, kickUser, hA]

/-- Witness for C2: a caller with status "member". -/
theorem privileged_rejects_non_admin_witness :
    lockGroup { sampleEnv with callerStatus := Except.ok "member" } =
      [Event.getChatMember 100 1, Event.reply onlyAdminsReply] ∧
    unlockGroup { sampleEnv with callerStatus := Except.ok "member" } =
      [Event.getChatMember 100 1, Event.reply onlyAdminsReply] ∧
    muteUser { sampleEnv with callerStatus := Except.ok "member" } =
      [Event.getChatMember 100 1, Event.reply onlyAdminsReply] ∧
    unmuteUser { sampleEnv with callerStatus := Except.ok "member" } =
      [Event.getChatMember 100 1, Event.reply onlyAdminsReply] ∧
    banUser { sampleEnv with callerStatus := Except.ok "member" } =
      [Event.getChatMember 100 1, Event.reply onlyAdminsReply] ∧
    kickUser { sampleEnv with callerStatus := Except.ok "member" } =
      [Event.getChatMember 100 1, Event.reply onlyAdminsReply] :=
  privileged_rejects_non_admin
    { sampleEnv with callerStatus := Except.ok "member" } "member" rfl
    (by decide) (by decide)

/-- C3: For every privileged command handler, a mutating remote call can
only appear in the trace when the caller lookup returned an admin status
and the own lookup of the bot returned an admin status; the trace then begins
with exactly those two `get_chat_member` calls, caller first, bot second,
and every mutating call comes after them. -/
theorem mutating_requires_gate (e : Env) :
    ((∃ ev ∈ lockGroup e, isMutating ev = true) →
      isAdmin e = true ∧ isBotAdmin e = true ∧
      ∃ rest, lockGroup e = Event.getChatMember e.chatId e.callerId ::
        Event.getChatMember e.chatId e.botId :: rest) ∧
    ((∃ ev ∈ unlockGroup e, isMutating ev = true) →
      isAdmin e = true ∧ isBotAdmin e = true ∧
      ∃ rest, unlockGroup e = Event.getChatMember e.chatId e.callerId ::
        Event.getChatMember e.chatId e.botId :: rest) ∧
    ((∃ ev ∈ muteUser e, isMutating ev = true) →
      isAdmin e = true ∧ isBotAdmin e = true ∧
      ∃ rest, muteUser e = Event.getChatMember e.chatId e.callerId ::
        Event.getChatMember e.chatId e.botId :: rest) ∧
    ((∃ ev ∈ unmuteUser e, isMutating ev = true) →
      isAdmin e = true ∧ isBotAdmin e = true ∧
      ∃ rest, unmuteUser e = Event.getChatMember e.chatId e.callerId ::
        Event.getChatMember e.chatId e.botId :: rest) ∧
    ((∃ ev ∈ banUser e, isMutating ev = true) →
      isAdmin e = true ∧ isBotAdmin e = true ∧
      ∃ rest, banUser e = Event.getChatMember e.chatId e.callerId ::
        Event.getChatMember e.chatId e.botId :: rest) ∧
    ((∃ ev ∈ kickUser e, isMutating ev = true) →
      isAdmin e = true ∧ isBotAdmin e = true ∧
      ∃ rest, kickUser e = Event.getChatMember e.chatId e.callerId ::
        Event.getChatMember e.chatId e.botId :: rest) := by
  cases hA : isAdmin e with
  | false =>
    refine ⟨?_, ?_, ?_, ?_, ?_, ?_⟩ <;>
      · intro hm
        obtain ⟨ev, hev, hmut⟩ := hm
        simp [lockGroup, unlockGroup, muteUser, unmuteUser, banUser,
          kickUser, hA] at hev
        rcases hev with rfl | rfl <;> simp [isMutating] at hmut
  | true =>
    cases hB : isBotAdmin e with
    | false =>
      refine ⟨?_, ?_, ?_, ?_, ?_, ?_⟩ <;>
        · intro hm
          obtain ⟨ev, hev, hmut⟩ := hm
          simp [lockGroup, unlockGroup, muteUser, unmuteUser, banUser,
            kickUser, hA, hB] at hev
          rcases hev with rfl | rfl | rfl <;> simp [isMutating] at hmut
    | true =>
      have h1 : ¬(isAdmin e = false) := by simp [hA]
      have h2 : ¬(isBotAdmin e = false) := by simp [hB]
      refine ⟨fun _ => ⟨rfl, rfl, ?_⟩, fun _ => ⟨rfl, rfl, ?_⟩,
        fun _ => ⟨rfl, rfl, ?_⟩, fun _ => ⟨rfl, rfl, ?_⟩,
        fun _ => ⟨rfl, rfl, ?_⟩, fun _ => ⟨rfl, rfl, ?_⟩⟩
      · simp only [lockGroup]; rw [if_neg h1, if_neg h2]; exact ⟨_, rfl⟩
      · simp only [unlockGroup]; rw [if_neg h1, if_neg h2]; exact ⟨_, rfl⟩
      · simp only [muteUser]; rw [if_neg h1, if_neg h2]; exact ⟨_, rfl⟩
      · simp only [unmuteUser]; rw [if_neg h1, if_neg h2]; exact ⟨_, rfl⟩
      · simp only [banUser]; rw [if_neg h1, if_neg h2]; exact ⟨_, rfl⟩
      · simp only [kickUser]; rw [if_neg h1, if_neg h2]; exact ⟨_, rfl⟩

/-- Witness for C3: in the all-succeeding environment, the lock handler
does issue `set_chat_permissions`, so both gates held and the trace starts
with the two lookups. -/
theorem mutating_requires_gate_witness :
    isAdmin sampleEnv = true ∧ isBotAdmin sampleEnv = true ∧
    ∃ rest, lockGroup sampleEnv = Event.getChatMember 100 1 ::
      Event.getChatMember 100 2 :: rest :=
  (mutating_requires_gate sampleEnv).1
    ⟨Event.setChatPermissions 100 lockPermissions, by decide, by decide⟩

/-- C4: A `TelegramError` raised by the `get_chat_member` lookup makes the
permission check return `False` ("not admin"), for either check; a failed
caller lookup ends every privileged handler with the only-admins rejection
reply, and a failed bot lookup (after a passing caller check) ends it with
the bot-needs-admin rejection reply — in both cases no privileged action
is performed and the caller still gets a text reply. -/
theorem lookup_error_fails_closed (e : Env) (err : String) :
    isAdminStatus (Except.error err) = false ∧
    isBotAdminStatus (Except.error err) = false ∧
    (e.callerStatus = Except.error err →
      lockGroup e = [Event.getChatMember e.chatId e.callerId,
        Event.reply onlyAdminsReply] ∧
      unlockGroup e = [Event.getChatMember e.chatId e.callerId,
        Event.reply onlyAdminsReply] ∧
      muteUser e = [Event.getChatMember e.chatId e.callerId,
        Event.reply onlyAdminsReply] ∧
      unmuteUser e = [Event.getChatMember e.chatId e.callerId,
        Event.reply onlyAdminsReply] ∧
      banUser e = [Event.getChatMember e.chatId e.callerId,
        Event.reply onlyAdminsReply] ∧
      kickUser e = [Event.getChatMember e.chatId e.callerId,
        Event.reply onlyAdminsReply]) ∧
    (isAdmin e = true → e.botStatus = Except.error err →
      lockGroup e = [Event.getChatMember e.chatId e.callerId,
        Event.getChatMember e.chatId e.botId,
        Event.reply "❌ I need admin privileges to lock the group!"] ∧
      unlockGroup e = [Event.getChatMember e.chatId e.callerId,
        Event.getChatMember e.chatId e.botId,
        Event.reply "❌ I need admin privileges to unlock the group!"] ∧
      muteUser e = [Event.getChatMember e.chatId e.callerId,
        Event.getChatMember e.chatId e.botId,
        Event.reply "❌ I need admin privileges to mute users!"] ∧
      unmuteUser e = [Event.getChatMember e.chatId e.callerId,
        Event.getChatMember e.chatId e.botId,
        Event.reply "❌ I need admin privileges to unmute users!"] ∧
      banUser e = [Event.getChatMember e.chatId e.callerId,
        Event.getChatMember e.chatId e.botId,
        Event.reply "❌ I need admin privileges to ban users!"] ∧
      kickUser e = [Event.getChatMember e.chatId e.callerId,
        Event.getChatMember e.chatId e.botId,
        Event.reply "❌ I need admin privileges to kick users!"]) := by
  refine ⟨rfl, rfl, ?_, ?_⟩
  · intro hc
    have hA : isAdmin e = false := by simp [isAdmin, hc, isAdminStatus]
    refine ⟨?_, ?_, ?_, ?_, ?_, ?_⟩ <;>
      simp [lockGroup, unlockGroup, muteUser, unmuteUser, banUser, kickUser, hA]
  · intro hA hb
    have hB : isBotAdmin e = false := by simp [isBotAdmin, hb, isBotAdminStatus]
    have h1 : ¬(isAdmin e = false) := by simp [hA]
    refine ⟨?_, ?_, ?_, ?_, ?_, ?_⟩ <;>
      simp [lockGroup, unlockGroup, muteUser, unmuteUser, banUser, kickUser,
        h1, hB]

/-- Witness for C4: a caller lookup that raises, and separately a bot
lookup that raises. -/
theorem lookup_error_fails_closed_witness :
    lockGroup { sampleEnv with callerStatus := Except.error "boom" } =
      [Event.getChatMember 100 1, Event.reply onlyAdminsReply] ∧
    muteUser { sampleEnv with botStatus := Except.error "boom" } =
      [Event.getChatMember 100 1, Event.getChatMember 100 2,
       Event.reply "❌ I need admin privileges to mute users!"] :=
  ⟨((lookup_error_fails_closed
      { sampleEnv with callerStatus := Except.error "boom" } "boom").2.2.1
      rfl).1,
   ((lookup_error_fails_closed
      { sampleEnv with botStatus := Except.error "boom" } "boom").2.2.2
      (by decide) rfl).2.2.1⟩

/-- C10: The caller check accepts both "administrator" and "creator"; the
bot check accepts only exactly "administrator".  In a chat where the own
status of the bot is "creator", `is_bot_admin` returns `False` and every
privileged command ends in one of the two rejection traces — no mutating
call is ever reached. -/
theorem bot_creator_rejected (e : Env) :
    isAdminStatus (Except.ok "administrator") = true ∧
    isAdminStatus (Except.ok "creator") = true ∧
    isBotAdminStatus (Except.ok "administrator") = true ∧
    isBotAdminStatus (Except.ok "creator") = false ∧
    (e.botStatus = Except.ok "creator" →
      isBotAdmin e = false ∧
      (lockGroup e = [Event.getChatMember e.chatId e.callerId,
          Event.reply onlyAdminsReply] ∨
        lockGroup e = [Event.getChatMember e.chatId e.callerId,
          Event.getChatMember e.chatId e.botId,
          Event.reply "❌ I need admin privileges to lock the group!"]) ∧
      (unlockGroup e = [Event.getChatMember e.chatId e.callerId,
          Event.reply onlyAdminsReply] ∨
        unlockGroup e = [Event.getChatMember e.chatId e.callerId,
          Event.getChatMember e.chatId e.botId,
          Event.reply "❌ I need admin privileges to unlock the group!"]) ∧
      (muteUser e = [Event.getChatMember e.chatId e.callerId,
          Event.reply onlyAdminsReply] ∨
        muteUser e = [Event.getChatMember e.chatId e.callerId,
          Event.getChatMember e.chatId e.botId,
          Event.reply "❌ I need admin privileges to mute users!"]) ∧
      (unmuteUser e = [Event.getChatMember e.chatId e.callerId,
          Event.reply onlyAdminsReply] ∨
        unmuteUser e = [Event.getChatMember e.chatId e.callerId,
          Event.getChatMember e.chatId e.botId,
          Event.reply "❌ I need admin privileges to unmute users!"]) ∧
      (banUser e = [Event.getChatMember e.chatId e.callerId,
          Event.reply onlyAdminsReply] ∨
        banUser e = [Event.getChatMember e.chatId e.callerId,
          Event.getChatMember e.chatId e.botId,
          Event.reply "❌ I need admin privileges to ban users!"]) ∧
      (kickUser e = [Event.getChatMember e.chatId e.callerId,
          Event.reply onlyAdminsReply] ∨
        kickUser e = [Event.getChatMember e.chatId e.callerId,
          Event.getChatMember e.chatId e.botId,
          Event.reply "❌ I need admin privileges to kick users!"])) := by
  refine ⟨rfl, rfl, rfl, rfl, ?_⟩
  intro hb
  have hB : isBotAdmin e = false := by simp [isBotAdmin, hb, isBotAdminStatus]
  refine ⟨hB, ?_, ?_, ?_, ?_, ?_, ?_⟩ <;>
    · cases hA : isAdmin e with
      | false =>
        left
        simp [lockGroup, unlockGroup, muteUser, unmuteUser, banUser,
          kickUser, hA]
      | true =>
        right
        have h1 : ¬(isAdmin e = false) := by simp [hA]
        simp [lockGroup, unlockGroup, muteUser, unmuteUser, banUser,
          kickUser, h1, hB]

/-- Witness for C10: bot status "creator" in an otherwise-passing
environment. -/
theorem bot_creator_rejected_witness :
    isBotAdmin { sampleEnv with botStatus := Except.ok "creator" } = false :=
  (((bot_creator_rejected
      { sampleEnv with botStatus := Except.ok "creator" }).2.2.2.2) rfl).1

/-- C8: `kick_user` is a `ban_chat_member` immediately followed by an
`unban_chat_member` of the same user in the same chat; when both succeed,
applying the trace to any initial ban state leaves the target not banned
(free to rejoin), while a successful `ban_user` leaves the target
banned. -/
theorem kick_is_ban_then_unban (e : Env) (t : TargetUser)
    (banned : Int × Int → Bool)
    (hA : isAdmin e = true) (hB : isBotAdmin e = true)
    (ht : e.replyTarget = some t)
    (hban : e.mutateResult = Except.ok ())
    (hunban : e.unbanResult = Except.ok ()) :
    kickUser e = [Event.getChatMember e.chatId e.callerId,
      Event.getChatMember e.chatId e.botId,
      Event.banChatMember e.chatId t.id,
      Event.unbanChatMember e.chatId t.id,
      Event.reply ("👢 User " ++ t.first_name ++ " has been kicked from the group.")] ∧
    applyTrace banned (kickUser e) (e.chatId, t.id) = false ∧
    banUser e = [Event.getChatMember e.chatId e.callerId,
      Event.getChatMember e.chatId e.botId,
      Event.banChatMember e.chatId t.id,
      Event.reply ("🚫 User " ++ t.first_name ++ " has been banned from the group.")] ∧
    applyTrace banned (banUser e) (e.chatId, t.id) = true := by
  have h1 : ¬(isAdmin e = false) := by simp [hA]
  have h2 : ¬(isBotAdmin e = false) := by simp [hB]
  have hk : kickUser e = [Event.getChatMember e.chatId e.callerId,
      Event.getChatMember e.chatId e.botId,
      Event.banChatMember e.chatId t.id,
      Event.unbanChatMember e.chatId t.id,
      Event.reply ("👢 User " ++ t.first_name ++ " has been kicked from the group.")] := by
    simp [kickUser, h1, h2, ht, hban, hunban]
  have hbn : banUser e = [Event.getChatMember e.chatId e.callerId,
      Event.getChatMember e.chatId e.botId,
      Event.banChatMember e.chatId t.id,
      Event.reply ("🚫 User " ++ t.first_name ++ " has been banned from the group.")] := by
    simp [banUser, h1, h2, ht, hban]
  refine ⟨hk, ?_, hbn, ?_⟩
  · rw [hk]
    simp [applyTrace, applyEvent]
  · rw [hbn]
    simp [applyTrace, applyEvent]

/-- Witness for C8 in the all-succeeding environment, starting from a
state where nobody is banned. -/
theorem kick_is_ban_then_unban_witness :
    kickUser sampleEnv = [Event.getChatMember 100 1,
      Event.getChatMember 100 2, Event.banChatMember 100 3,
      Event.unbanChatMember 100 3,
      Event.reply "👢 User T has been kicked from the group."] ∧
    applyTrace (fun _ => false) (kickUser sampleEnv) (100, 3) = false ∧
    banUser sampleEnv = [Event.getChatMember 100 1,
      Event.getChatMember 100 2, Event.banChatMember 100 3,
      Event.reply "🚫 User T has been banned from the group."] ∧
    applyTrace (fun _ => false) (banUser sampleEnv) (100, 3) = true :=
  kick_is_ban_then_unban sampleEnv { id := 3, first_name := "T" }
    (fun _ => false) (by decide) (by decide) rfl rfl rfl

/-- An environment in which the caller-permission lookup raises a
`TelegramError` whose message text is "boom". -/
def envLookupErr : Env := { sampleEnv with callerStatus := Except.error "boom" }

/-- Counterexample to C6 as stated: in `lock_group` the remote
`get_chat_member` lookup raises a platform error ("boom"), yet the only
reply the handler sends is the fixed only-admins rejection, whose text
does not contain the message text of the error. -/
theorem remote_error_reply_counterexample :
    envLookupErr.callerStatus = Except.error "boom" ∧
    lockGroup envLookupErr =
      [Event.getChatMember 100 1, Event.reply onlyAdminsReply] ∧
    (∀ txt, Event.reply txt ∈ lockGroup envLookupErr →
      strContains txt "boom" = false) := by
  have htr : lockGroup envLookupErr =
      [Event.getChatMember 100 1, Event.reply onlyAdminsReply] := by decide
  refine ⟨rfl, htr, ?_⟩
  intro txt hmem
  rw [htr] at hmem
  simp only [List.mem_cons, List.mem_singleton, reduceCtorEq, false_or,
    Event.reply.injEq] at hmem
  rcases hmem with rfl | h
  · decide
  · exact absurd h (by simp)

/-- C6 (amended): For every handler, a platform error raised by a remote
call other than the permission-check lookups is caught at its point of
use and surfaced as a chat reply whose text contains the message text of
the error (a fixed prefix followed by `str(e)`), and the failing call appears
exactly once in the trace — it is not retried.  (Permission-lookup
failures instead produce the fixed rejection reply; see the
counterexample and C4.) -/
theorem remote_error_reply_amended (e : Env) (s : Store) (err : String)
    (t : TargetUser) :
    (isAdmin e = true → isBotAdmin e = true →
      e.mutateResult = Except.error err →
      lockGroup e = [Event.getChatMember e.chatId e.callerId,
        Event.getChatMember e.chatId e.botId,
        Event.setChatPermissions e.chatId lockPermissions,
        Event.reply ("❌ Failed to lock group: " ++ err)] ∧
      unlockGroup e = [Event.getChatMember e.chatId e.callerId,
        Event.getChatMember e.chatId e.botId,
        Event.setChatPermissions e.chatId unlockPermissions,
        Event.reply ("❌ Failed to unlock group: " ++ err)] ∧
      (e.replyTarget = some t →
        muteUser e = [Event.getChatMember e.chatId e.callerId,
          Event.getChatMember e.chatId e.botId,
          Event.restrictChatMember e.chatId t.id mutePermissions true,
          Event.reply ("❌ Failed to mute user: " ++ err)] ∧
        unmuteUser e = [Event.getChatMember e.chatId e.callerId,
          Event.getChatMember e.chatId e.botId,
          Event.restrictChatMember e.chatId t.id unmutePermissions false,
          Event.reply ("❌ Failed to unmute user: " ++ err)] ∧
        banUser e = [Event.getChatMember e.chatId e.callerId,
          Event.getChatMember e.chatId e.botId,
          Event.banChatMember e.chatId t.id,
          Event.reply ("❌ Failed to ban user: " ++ err)] ∧
        kickUser e = [Event.getChatMember e.chatId e.callerId,
          Event.getChatMember e.chatId e.botId,
          Event.banChatMember e.chatId t.id,
          Event.reply ("❌ Failed to kick user: " ++ err)])) ∧
    (isAdmin e = true → isBotAdmin e = true → e.replyTarget = some t →
      e.mutateResult = Except.ok () → e.unbanResult = Except.error err →
      kickUser e = [Event.getChatMember e.chatId e.callerId,
        Event.getChatMember e.chatId e.botId,
        Event.banChatMember e.chatId t.id,
        Event.unbanChatMember e.chatId t.id,
        Event.reply ("❌ Failed to kick user: " ++ err)]) ∧
    (e.chatType ≠ "private" → e.memberCountRes = Except.error err →
      statsCommand e s = [Event.getChatMemberCount e.chatId,
        Event.reply ("❌ Error getting statistics: " ++ err)]) ∧
    (e.chatType ≠ "private" → ∀ mc, e.memberCountRes = Except.ok mc →
      e.adminsRes = Except.error err →
      statsCommand e s = [Event.getChatMemberCount e.chatId,
        Event.getChatAdministrators e.chatId,
        Event.reply ("❌ Error getting statistics: " ++ err)]) := by
  refine ⟨?_, ?_, ?_, ?_⟩
  · intro hA hB hm
    have h1 : ¬(isAdmin e = false) := by simp [hA]
    have h2 : ¬(isBotAdmin e = false) := by simp [hB]
    refine ⟨by simp [lockGroup, h1, h2, hm],
      by simp [unlockGroup, h1, h2, hm], ?_⟩
    intro ht
    exact ⟨by simp [muteUser, h1, h2, ht, hm],
      by simp [unmuteUser, h1, h2, ht, hm],
      by simp [banUser, h1, h2, ht, hm],
      by simp [kickUser, h1, h2, ht, hm]⟩
  · intro hA hB ht hm hu
    have h1 : ¬(isAdmin e = false) := by simp [hA]
    have h2 : ¬(isBotAdmin e = false) := by simp [hB]
    simp [kickUser, h1, h2, ht, hm, hu]
  · intro hp hm
    simp [statsCommand, hp, hm]
  · intro hp mc hm ha
    simp [statsCommand, hp, hm, ha]

/-- Witness for the amended C6: a failing `set_chat_permissions` in
`lock_group` is issued once and surfaced with its message text. -/
theorem remote_error_reply_amended_witness :
    lockGroup { sampleEnv with mutateResult := Except.error "boom" } =
      [Event.getChatMember 100 1, Event.getChatMember 100 2,
       Event.setChatPermissions 100 lockPermissions,
       Event.reply ("❌ Failed to lock group: " ++ "boom")] :=
  ((remote_error_reply_amended
      { sampleEnv with mutateResult := Except.error "boom" }
      { group_stats := [], user_activity := [] } "boom"
      { id := 3, first_name := "T" }).1 (by decide) (by decide) rfl).1
